import Mathlib

/-!
Shallow embedding of the automatic statistical comparison engine of
`src/neuromorpho_analyzer/core/processors/statistics.py` (class
`StatisticsEngine`), together with proofs of the specification claims
about it.

Modelling conventions:
* A pandas float value is `Fl := Option ℚ`; `none` stands for IEEE NaN.
  Every IEEE comparison with NaN is false, which the helpers `flLT`/`flGT`
  reproduce.  Values that the Python code obtains as square roots
  (standard deviations, Cohen's d) are `Option ℝ`, again with `none` for
  NaN.
* A `pd.Series` of values is `List Fl`; the two-column data frame passed
  to `auto_compare` is projected to `List (String × Fl)` — one row of
  (group label, value).  Group labels are never NaN in this projection.
* Calls into scipy/statsmodels (`stats.shapiro`, `stats.ttest_ind`,
  `stats.mannwhitneyu`, `stats.f_oneway`, `stats.kruskal`,
  `pairwise_tukeyhsd`) are not code of this repository; they are
  abstracted as a `SciPyOracle` of total functions (library present,
  returning some float pair).  All arithmetic the repository performs
  itself (means, standard deviations, Cohen's d, η², medians) is embedded
  exactly.
* `raise ValueError(...)` becomes `Except.error (PyError.valueError ...)`.
-/

/-- Float value of the pandas/numpy world: `none` is NaN. -/
abbrev Fl := Option ℚ

/-- IEEE `a < b` against a non-NaN threshold: false when `a` is NaN. -/
def flLT (a : Fl) (b : ℚ) : Bool :=
  match a with
  | some q => decide (q < b)
  | none => false

/-- IEEE `a > b` against a non-NaN threshold: false when `a` is NaN. -/
def flGT (a : Fl) (b : ℚ) : Bool :=
  match a with
  | some q => decide (b < q)
  | none => false

/-- NaN-propagating subtraction of two float values. -/
def flSub (a b : Fl) : Fl :=
  match a, b with
  | some x, some y => some (x - y)
  | _, _ => none

/-- `Series.dropna()`: keep the non-NaN entries, in order. -/
def dropna (xs : List Fl) : List ℚ := xs.filterMap id

/-- Arithmetic mean of a list of rationals (meaningful only when nonempty). -/
def qmean (xs : List ℚ) : ℚ := xs.sum / (xs.length : ℚ)

/-- `Series.mean()`: NaN on an empty series. -/
def meanFl (xs : List ℚ) : Fl :=
  if xs.isEmpty then none else some (qmean xs)

/-- Sample variance with `ddof = 1` (the pandas `std()**2` for `n ≥ 2`). -/
def sampleVar (xs : List ℚ) : ℚ :=
  ((xs.map (fun x => (x - qmean xs) ^ 2)).sum) / ((xs.length : ℚ) - 1)

/-- `Series.std()` (ddof = 1): NaN when fewer than 2 observations. -/
noncomputable def stdFl (xs : List ℚ) : Option ℝ :=
  if 2 ≤ xs.length then some (Real.sqrt (sampleVar xs)) else none

/-- `Series.median()`: midpoint of the sorted list, NaN on empty input. -/
def medianFl (xs : List ℚ) : Fl :=
  let s := xs.insertionSort (· ≤ ·)
  let n := s.length
  if n = 0 then none
  else if n % 2 = 1 then some (s.getD (n / 2) 0)
  else some ((s.getD (n / 2 - 1) 0 + s.getD (n / 2) 0) / 2)

/-- `Series.min()`: NaN on empty input. -/
def minFl (xs : List ℚ) : Fl :=
  match xs with
  | [] => none
  | y :: ys => some (ys.foldl min y)

/-- `Series.max()`: NaN on empty input. -/
def maxFl (xs : List ℚ) : Fl :=
  match xs with
  | [] => none
  | y :: ys => some (ys.foldl max y)

/-- Result record of `StatisticsEngine.test_normality`. -/
structure NormalityTest where
  test_name : String
  statistic : Fl
  p_value : Fl
  is_normal : Bool
  alpha : ℚ
deriving DecidableEq, Repr

/-- The `additional_info` dictionary of `independent_t_test`. -/
structure TTestInfo where
  mean_diff : Fl
  cohens_d : Option ℝ
  group1_mean : Fl
  group2_mean : Fl
  group1_std : Option ℝ
  group2_std : Option ℝ
  group1_n : Nat
  group2_n : Nat

/-- The `additional_info` dictionary of `mann_whitney_test`. -/
structure MannWhitneyInfo where
  group1_median : Fl
  group2_median : Fl
  group1_n : Nat
  group2_n : Nat
deriving DecidableEq, Repr

/-- The `additional_info` dictionary of `one_way_anova`. -/
structure AnovaInfo where
  eta_squared : Fl
  num_groups : Nat
  group_means : List Fl
  group_stds : List (Option ℝ)
  group_ns : List Nat

/-- The `additional_info` dictionary of `kruskal_wallis`. -/
structure KruskalInfo where
  num_groups : Nat
  group_medians : List Fl
  group_ns : List Nat
deriving DecidableEq, Repr

/-- Tagged union of the per-test `additional_info` payloads (the Python
code stores a free-form dict; each call site populates exactly one of
these shapes). -/
inductive TestInfo where
  | ttest (i : TTestInfo)
  | mannwhitney (i : MannWhitneyInfo)
  | anova (i : AnovaInfo)
  | kruskal (i : KruskalInfo)

/-- Result record of a main statistical test (`StatisticalTest` dataclass). -/
structure StatisticalTest where
  test_name : String
  statistic : Fl
  p_value : Fl
  significant : Bool
  alpha : ℚ
  additional_info : TestInfo

/-- Result record of a pairwise post-hoc comparison (`PostHocTest`
dataclass). -/
structure PostHocTest where
  group1 : String
  group2 : String
  mean_diff : Fl
  p_value : Fl
  significant : Bool
  confidence_interval : Option (Fl × Fl)
deriving DecidableEq, Repr

/-- Python exceptions raised by the embedded code. -/
inductive PyError where
  | valueError (msg : String)
deriving DecidableEq, Repr

/-- Abstract interface to the scipy / statsmodels calls the engine makes.
Each function returns the (statistic, p-value) pair of floats; the
Tukey call returns its parsed pairwise table.  The oracle is a
parameter of the embedding: theorems about the engine's control flow
hold for every oracle. -/
structure SciPyOracle where
  shapiro : List ℚ → Fl × Fl
  kstest : List ℚ → Fl × Fl
  ttest_ind : List ℚ → List ℚ → Bool → Fl × Fl
  mannwhitneyu : List ℚ → List ℚ → Fl × Fl
  f_oneway : List (List ℚ) → Fl × Fl
  kruskal : List (List ℚ) → Fl × Fl
  pairwise_tukeyhsd : List (String × ℚ) → ℚ → List PostHocTest

/-- `StatisticsEngine.test_normality`: drop NaNs; with fewer than 3 valid
observations return the sentinel verdict (`is_normal=false`, NaN
statistic and p-value) without raising; otherwise dispatch on the test
name, raising `ValueError` for an unknown one. -/
def test_normality (o : SciPyOracle) (alpha : ℚ) (data : List Fl)
    (test : String) : Except PyError NormalityTest :=
  let data_clean := dropna data
  if data_clean.length < 3 then
    .ok { test_name := test, statistic := none, p_value := none,
          is_normal := false, alpha := alpha }
  else if test = "shapiro" then
    let r := o.shapiro data_clean
    .ok { test_name := "Shapiro-Wilk", statistic := r.1, p_value := r.2,
          is_normal := flGT r.2 alpha, alpha := alpha }
  else if test = "kstest" then
    let r := o.kstest data_clean
    .ok { test_name := "Kolmogorov-Smirnov", statistic := r.1, p_value := r.2,
          is_normal := flGT r.2 alpha, alpha := alpha }
  else
    .error (.valueError ("Unknown normality test: " ++ test))

/-- `StatisticsEngine.independent_t_test`: clean both groups, get the
t statistic and p-value from scipy, and compute Cohen's d as
`mean_diff / sqrt((std1² + std2²) / 2)`, guarded to NaN when the pooled
standard deviation is not positive (including when either std is NaN). -/
noncomputable def independent_t_test (o : SciPyOracle) (alpha : ℚ)
    (group1 group2 : List Fl) (equal_var : Bool) : StatisticalTest :=
  let g1_clean := dropna group1
  let g2_clean := dropna group2
  let r := o.ttest_ind g1_clean g2_clean equal_var
  let mean_diff := flSub (meanFl g1_clean) (meanFl g2_clean)
  let pooled_std : Option ℝ :=
    match stdFl g1_clean, stdFl g2_clean with
    | some s1, some s2 => some (Real.sqrt ((s1 ^ 2 + s2 ^ 2) / 2))
    | _, _ => none
  let cohens_d : Option ℝ :=
    match pooled_std with
    | some ps => if 0 < ps then mean_diff.map (fun q => (q : ℝ) / ps) else none
    | none => none
  { test_name := if equal_var then "Independent t-test" else "Welch's t-test",
    statistic := r.1, p_value := r.2,
    significant := flLT r.2 alpha, alpha := alpha,
    additional_info := .ttest
      { mean_diff := mean_diff, cohens_d := cohens_d,
        group1_mean := meanFl g1_clean, group2_mean := meanFl g2_clean,
        group1_std := stdFl g1_clean, group2_std := stdFl g2_clean,
        group1_n := g1_clean.length, group2_n := g2_clean.length } }

/-- `StatisticsEngine.mann_whitney_test`: clean both groups, get the U
statistic and two-sided p-value from scipy, report medians and sizes. -/
def mann_whitney_test (o : SciPyOracle) (alpha : ℚ)
    (group1 group2 : List Fl) : StatisticalTest :=
  let g1_clean := dropna group1
  let g2_clean := dropna group2
  let r := o.mannwhitneyu g1_clean g2_clean
  { test_name := "Mann-Whitney U test",
    statistic := r.1, p_value := r.2,
    significant := flLT r.2 alpha, alpha := alpha,
    additional_info := .mannwhitney
      { group1_median := medianFl g1_clean, group2_median := medianFl g2_clean,
        group1_n := g1_clean.length, group2_n := g2_clean.length } }

/-- Grand mean used by `one_way_anova`: `np.mean([g.mean() for g in ...])`,
NaN when there is no group or some group is empty. -/
def grandMean (groups_clean : List (List ℚ)) : Fl :=
  if groups_clean.isEmpty ∨ groups_clean.any (·.isEmpty) then none
  else some (qmean (groups_clean.map qmean))

/-- `ss_between = Σ_g n_g (mean_g − grand_mean)²` for a non-NaN grand mean. -/
def ssBetween (groups_clean : List (List ℚ)) (gm : ℚ) : ℚ :=
  (groups_clean.map (fun g => (g.length : ℚ) * (qmean g - gm) ^ 2)).sum

/-- `ss_total = Σ_g Σ_{x∈g} (x − grand_mean)²` for a non-NaN grand mean. -/
def ssTotal (groups_clean : List (List ℚ)) (gm : ℚ) : ℚ :=
  (groups_clean.map (fun g => (g.map (fun x => (x - gm) ^ 2)).sum)).sum

/-- `StatisticsEngine.one_way_anova`: clean each group, get the F
statistic and p-value from scipy, and compute η² = SS_between/SS_total,
guarded to NaN when SS_total is not positive (or is itself NaN). -/
noncomputable def one_way_anova (o : SciPyOracle) (alpha : ℚ)
    (groups : List (List Fl)) : StatisticalTest :=
  let groups_clean := groups.map dropna
  let r := o.f_oneway groups_clean
  let gm := grandMean groups_clean
  let ss_between : Fl := gm.map (ssBetween groups_clean)
  let ss_total : Fl := gm.map (ssTotal groups_clean)
  let eta_squared : Fl :=
    match ss_total, ss_between with
    | some st, some sb => if 0 < st then some (sb / st) else none
    | _, _ => none
  { test_name := "One-way ANOVA",
    statistic := r.1, p_value := r.2,
    significant := flLT r.2 alpha, alpha := alpha,
    additional_info := .anova
      { eta_squared := eta_squared,
        num_groups := groups_clean.length,
        group_means := groups_clean.map meanFl,
        group_stds := groups_clean.map stdFl,
        group_ns := groups_clean.map List.length } }

/-- `StatisticsEngine.kruskal_wallis`: clean each group, get the H
statistic and p-value from scipy, report medians and sizes.  No post-hoc
logic lives here. -/
def kruskal_wallis (o : SciPyOracle) (alpha : ℚ)
    (groups : List (List Fl)) : StatisticalTest :=
  let groups_clean := groups.map dropna
  let r := o.kruskal groups_clean
  { test_name := "Kruskal-Wallis H test",
    statistic := r.1, p_value := r.2,
    significant := flLT r.2 alpha, alpha := alpha,
    additional_info := .kruskal
      { num_groups := groups_clean.length,
        group_medians := groups_clean.map medianFl,
        group_ns := groups_clean.map List.length } }

/-- `StatisticsEngine.tukey_hsd`: drop rows whose value is NaN and hand
the (label, value) rows to statsmodels, whose parsed pairwise table the
oracle returns (statsmodels is modelled as importable). -/
def tukey_hsd (o : SciPyOracle) (alpha : ℚ)
    (data : List (String × Fl)) : List PostHocTest :=
  o.pairwise_tukeyhsd (data.filterMap (fun row => row.2.map (fun v => (row.1, v)))) alpha

/-- Per-group descriptive statistics block of `auto_compare`. -/
structure Descriptive where
  n : Nat
  mean : Fl
  std : Option ℝ
  median : Fl
  min : Fl
  max : Fl

/-- Descriptive statistics of one cleaned group, as `auto_compare`
computes them. -/
noncomputable def describe (cleaned : List ℚ) : Descriptive :=
  { n := cleaned.length, mean := meanFl cleaned, std := stdFl cleaned,
    median := medianFl cleaned, min := minFl cleaned, max := maxFl cleaned }

/-- `Series.unique()` on the group column: distinct labels in first-seen
order. -/
def uniqueLabels : List String → List String
  | [] => []
  | x :: xs => x :: (uniqueLabels xs).filter (fun y => y ≠ x)

/-- `data[data[group_col] == g][value_col]`: the value series of one
group, NaNs included (each test drops them itself). -/
def col (data : List (String × Fl)) (g : String) : List Fl :=
  (data.filter (fun row => row.1 == g)).map (·.2)

/-- The normality loop of `auto_compare`: one Shapiro-Wilk verdict per
group, in group order, any exception propagating. -/
def normLoop (o : SciPyOracle) (alpha : ℚ) (data : List (String × Fl)) :
    List String → Except PyError (List (String × NormalityTest))
  | [] => pure []
  | g :: gs => do
      let nt ← test_normality o alpha (col data g) "shapiro"
      let rest ← normLoop o alpha data gs
      pure ((g, nt) :: rest)

/-- The result dictionary returned by `auto_compare`. -/
structure AutoResult where
  num_groups : Nat
  group_names : List String
  value_col : String
  group_col : String
  normality_tests : List (String × NormalityTest)
  main_test : StatisticalTest
  post_hoc_tests : Option (List PostHocTest)
  descriptive_stats : List (String × Descriptive)
  parametric : Bool

/-- `StatisticsEngine.auto_compare`: group discovery, the
fewer-than-2-groups `ValueError`, per-group descriptive statistics,
optional normality stage (skipped under a parametric override),
branch selection by group count and parametric flag, and the
parametric-ANOVA-only post-hoc trigger (`post_hoc_tests` starts as
`None` and is assigned only when a significant one-way ANOVA ran). -/
noncomputable def auto_compare (o : SciPyOracle) (data : List (String × Fl))
    (value_col group_col : String) (alpha : ℚ)
    (parametric? : Option Bool) : Except PyError AutoResult := do
  let groups := uniqueLabels (data.map (·.1))
  let num_groups := groups.length
  if num_groups < 2 then
    throw (.valueError "Need at least 2 groups for comparison")
  let descriptive_stats :=
    groups.map (fun g => (g, describe (dropna (col data g))))
  let staged ←
    match parametric? with
    | some b => pure (([] : List (String × NormalityTest)), b)
    | none => do
        let nts ← normLoop o alpha data groups
        pure (nts, nts.all (fun p => p.2.is_normal))
  let normality_tests := staged.1
  let parametric := staged.2
  if num_groups = 2 then
    let group1_data := col data (groups.getD 0 "")
    let group2_data := col data (groups.getD 1 "")
    let main_test :=
      if parametric then independent_t_test o alpha group1_data group2_data true
      else mann_whitney_test o alpha group1_data group2_data
    pure { num_groups := num_groups, group_names := groups,
           value_col := value_col, group_col := group_col,
           normality_tests := normality_tests, main_test := main_test,
           post_hoc_tests := none, descriptive_stats := descriptive_stats,
           parametric := parametric }
  else
    let group_data_list := groups.map (col data)
    if parametric then
      let main_test := one_way_anova o alpha group_data_list
      let post_hoc_tests :=
        if main_test.significant then some (tukey_hsd o alpha data) else none
      pure { num_groups := num_groups, group_names := groups,
             value_col := value_col, group_col := group_col,
             normality_tests := normality_tests, main_test := main_test,
             post_hoc_tests := post_hoc_tests,
             descriptive_stats := descriptive_stats, parametric := parametric }
    else
      let main_test := kruskal_wallis o alpha group_data_list
      pure { num_groups := num_groups, group_names := groups,
             value_col := value_col, group_col := group_col,
             normality_tests := normality_tests, main_test := main_test,
             post_hoc_tests := none,
             descriptive_stats := descriptive_stats, parametric := parametric }

/-- The verdict `test_normality` produces for the default `"shapiro"`
test: the sentinel below 3 valid observations, a Shapiro-Wilk verdict
otherwise.  This path never raises. -/
def shapiroNT (o : SciPyOracle) (alpha : ℚ) (data : List Fl) : NormalityTest :=
  let data_clean := dropna data
  if data_clean.length < 3 then
    { test_name := "shapiro", statistic := none, p_value := none,
      is_normal := false, alpha := alpha }
  else
    { test_name := "Shapiro-Wilk", statistic := (o.shapiro data_clean).1,
      p_value := (o.shapiro data_clean).2,
      is_normal := flGT (o.shapiro data_clean).2 alpha, alpha := alpha }

theorem test_normality_shapiro (o : SciPyOracle) (alpha : ℚ) (data : List Fl) :
    test_normality o alpha data "shapiro" = .ok (shapiroNT o alpha data) := by
  unfold test_normality shapiroNT
  by_cases h : (dropna data).length < 3 <;> simp [h]

theorem normLoop_ok (o : SciPyOracle) (alpha : ℚ) (data : List (String × Fl))
    (gs : List String) :
    normLoop o alpha data gs
      = .ok (gs.map (fun g => (g, shapiroNT o alpha (col data g)))) := by
  induction gs with
  | nil => rfl
  | cons g gs ih =>
      simp only [normLoop, test_normality_shapiro, ih, List.map_cons]
      rfl

/-- The value `auto_compare` returns once past its group-count guard,
as a total function: the normality loop is replaced by its (never
failing) per-group Shapiro-Wilk verdicts. -/
noncomputable def auto_core (o : SciPyOracle) (data : List (String × Fl))
    (value_col group_col : String) (alpha : ℚ)
    (parametric? : Option Bool) : AutoResult :=
  let groups := uniqueLabels (data.map (·.1))
  let num_groups := groups.length
  let descriptive_stats :=
    groups.map (fun g => (g, describe (dropna (col data g))))
  let staged : List (String × NormalityTest) × Bool :=
    match parametric? with
    | some b => ([], b)
    | none =>
        let nts := groups.map (fun g => (g, shapiroNT o alpha (col data g)))
        (nts, nts.all (fun p => p.2.is_normal))
  let normality_tests := staged.1
  let parametric := staged.2
  if num_groups = 2 then
    let group1_data := col data (groups.getD 0 "")
    let group2_data := col data (groups.getD 1 "")
    let main_test :=
      if parametric then independent_t_test o alpha group1_data group2_data true
      else mann_whitney_test o alpha group1_data group2_data
    { num_groups := num_groups, group_names := groups,
      value_col := value_col, group_col := group_col,
      normality_tests := normality_tests, main_test := main_test,
      post_hoc_tests := none, descriptive_stats := descriptive_stats,
      parametric := parametric }
  else
    let group_data_list := groups.map (col data)
    if parametric then
      let main_test := one_way_anova o alpha group_data_list
      let post_hoc_tests :=
        if main_test.significant then some (tukey_hsd o alpha data) else none
      { num_groups := num_groups, group_names := groups,
        value_col := value_col, group_col := group_col,
        normality_tests := normality_tests, main_test := main_test,
        post_hoc_tests := post_hoc_tests,
        descriptive_stats := descriptive_stats, parametric := parametric }
    else
      let main_test := kruskal_wallis o alpha group_data_list
      { num_groups := num_groups, group_names := groups,
        value_col := value_col, group_col := group_col,
        normality_tests := normality_tests, main_test := main_test,
        post_hoc_tests := none,
        descriptive_stats := descriptive_stats, parametric := parametric }

theorem exBindOk {ε α β : Type} (a : α) (k : α → Except ε β) :
    Bind.bind (Except.ok a) k = k a := rfl

theorem exBindPure {ε α β : Type} (a : α) (k : α → Except ε β) :
    Bind.bind (pure a : Except ε α) k = k a := rfl

theorem auto_compare_error (o : SciPyOracle) (data : List (String × Fl))
    (value_col group_col : String) (alpha : ℚ) (parametric? : Option Bool)
    (h : (uniqueLabels (data.map (·.1))).length < 2) :
    auto_compare o data value_col group_col alpha parametric?
      = .error (.valueError "Need at least 2 groups for comparison") := by
  unfold auto_compare
  rw [if_pos h]
  rfl

theorem auto_compare_ok (o : SciPyOracle) (data : List (String × Fl))
    (value_col group_col : String) (alpha : ℚ) (parametric? : Option Bool)
    (h : 2 ≤ (uniqueLabels (data.map (·.1))).length) :
    auto_compare o data value_col group_col alpha parametric?
      = .ok (auto_core o data value_col group_col alpha parametric?) := by
  unfold auto_compare auto_core
  have h' : ¬ (uniqueLabels (data.map (·.1))).length < 2 := Nat.not_lt.mpr h
  rw [if_neg h']
  cases parametric? with
  | some b =>
      simp only [exBindPure, exBindOk]
      by_cases h2 : (uniqueLabels (data.map (·.1))).length = 2
      · simp only [h2]; rfl
      · cases b <;> simp only [if_neg h2] <;> rfl
  | none =>
      rw [normLoop_ok]
      simp only [exBindPure, exBindOk]
      by_cases h2 : (uniqueLabels (data.map (·.1))).length = 2
      · simp only [h2]; rfl
      · by_cases hp : (((uniqueLabels (data.map (·.1))).map
            (fun g => (g, shapiroNT o alpha (col data g)))).all
            (fun p => p.2.is_normal)) = true
        · simp only [if_neg h2, hp]; rfl
        · simp only [if_neg h2, if_neg hp]
          rfl

/-- A concrete scipy stand-in for witnesses: every test returns
statistic 0 and p-value 1, Tukey returns an empty table. -/
def trivialOracle : SciPyOracle where
  shapiro := fun _ => (some 0, some 1)
  kstest := fun _ => (some 0, some 1)
  ttest_ind := fun _ _ _ => (some 0, some 1)
  mannwhitneyu := fun _ _ => (some 0, some 1)
  f_oneway := fun _ => (some 0, some 1)
  kruskal := fun _ => (some 0, some 1)
  pairwise_tukeyhsd := fun _ _ => []

/-- Scenario D input: one group with 2 observations; a second group with
0 observations contributes no row, so only one distinct label occurs. -/
def dataScenarioD : List (String × Fl) := [("g1", some 1), ("g1", some 2)]

/-- C8: with fewer than 2 distinct group labels present in the data —
in particular one group with 2 observations and a second group with 0
observations, which contributes no row — `auto_compare` raises the
group-count `ValueError` (the spec's `InvalidGroupCountError`), and it
does so for every oracle, i.e. before any normality or main test could
execute. -/
theorem claim_C8_invalid_group_count (data : List (String × Fl))
    (h : (uniqueLabels (data.map (·.1))).length < 2)
    (o : SciPyOracle) (value_col group_col : String) (alpha : ℚ)
    (parametric? : Option Bool) :
    auto_compare o data value_col group_col alpha parametric?
      = .error (.valueError "Need at least 2 groups for comparison") :=
  auto_compare_error o data value_col group_col alpha parametric? h

/-- Witness for C8 at the Scenario D input. -/
theorem claim_C8_witness :
    (uniqueLabels (dataScenarioD.map (·.1))).length < 2 ∧
    auto_compare trivialOracle dataScenarioD "value" "group" (mkRat 1 20) none
      = .error (.valueError "Need at least 2 groups for comparison") :=
  ⟨by decide,
   claim_C8_invalid_group_count dataScenarioD (by decide) trivialOracle
     "value" "group" (mkRat 1 20) none⟩

/-- C9: `auto_compare` is deterministic — two invocations with identical
data, column names, parametric override and significance threshold
produce identical reports (two-run equality of the embedded function,
which is pure: the only sources of nondeterminism would be the scipy
calls, fixed by the oracle argument). -/
theorem claim_C9_deterministic (o : SciPyOracle) (data : List (String × Fl))
    (value_col group_col : String) (alpha : ℚ) (parametric? : Option Bool) :
    auto_compare o data value_col group_col alpha parametric?
      = auto_compare o data value_col group_col alpha parametric? := rfl

theorem auto_core_posthoc_cases (o : SciPyOracle) (data : List (String × Fl))
    (value_col group_col : String) (alpha : ℚ) (parametric? : Option Bool)
    (hlen : 2 ≤ (uniqueLabels (data.map (·.1))).length) :
    (auto_core o data value_col group_col alpha parametric?).post_hoc_tests = none ∨
      (3 ≤ (auto_core o data value_col group_col alpha parametric?).num_groups ∧
        (auto_core o data value_col group_col alpha parametric?).main_test.significant = true ∧
        (auto_core o data value_col group_col alpha parametric?).parametric = true) := by
  unfold auto_core
  by_cases h2 : (uniqueLabels (data.map (·.1))).length = 2
  · left
    simp [h2]
  · have h3 : 3 ≤ (uniqueLabels (data.map (·.1))).length := by omega
    cases parametric? with
    | some b =>
        cases b with
        | false => left; simp [if_neg h2]
        | true =>
            cases hsig : (one_way_anova o alpha
                ((uniqueLabels (data.map (·.1))).map (col data))).significant with
            | false => left; simp [if_neg h2, hsig]
            | true =>
                right
                refine ⟨?_, ?_, ?_⟩ <;> simp [if_neg h2, hsig]
                exact h3
    | none =>
        cases hall : ((uniqueLabels (data.map (·.1))).map
            (fun g => (g, shapiroNT o alpha (col data g)))).all
            (fun q => q.2.is_normal) with
        | false => left; simp [if_neg h2, hall]
        | true =>
            cases hsig : (one_way_anova o alpha
                ((uniqueLabels (data.map (·.1))).map (col data))).significant with
            | false => left; simp [if_neg h2, hall, hsig]
            | true =>
                right
                refine ⟨?_, ?_, ?_⟩ <;> simp [if_neg h2, hall, hsig]
                exact h3

/-- Scenario-B-shaped input: three groups of three observations each. -/
def dataThree : List (String × Fl) :=
  [("a", some 1), ("a", some 2), ("a", some 3),
   ("b", some 2), ("b", some 3), ("b", some 4),
   ("c", some 3), ("c", some 4), ("c", some 5)]

/-- A concrete scipy stand-in under which every group fails normality
(Shapiro p = 1/100 ≤ α) and Kruskal-Wallis is significant
(p = 1/1000 < α); p-values are written with `mkRat`. -/
def oracleKW : SciPyOracle where
  shapiro := fun _ => (some 1, some (mkRat 1 100))
  kstest := fun _ => (some 0, some 1)
  ttest_ind := fun _ _ _ => (some 0, some 1)
  mannwhitneyu := fun _ _ => (some 0, some (mkRat 1 100))
  f_oneway := fun _ => (some 0, some 1)
  kruskal := fun _ => (some 9, some (mkRat 1 1000))
  pairwise_tukeyhsd := fun _ _ => []

/-- C2: whenever `auto_compare` returns a report and the condition
"3 or more groups and significant main test" fails, the `post_hoc_tests`
field is `None` (never an empty list). -/
theorem claim_C2_posthoc_none (o : SciPyOracle) (data : List (String × Fl))
    (value_col group_col : String) (alpha : ℚ) (parametric? : Option Bool)
    (r : AutoResult)
    (hok : auto_compare o data value_col group_col alpha parametric? = .ok r)
    (hcond : ¬ (3 ≤ r.num_groups ∧ r.main_test.significant = true)) :
    r.post_hoc_tests = none := by
  by_cases hlen : 2 ≤ (uniqueLabels (data.map (·.1))).length
  · rw [auto_compare_ok o data value_col group_col alpha parametric? hlen] at hok
    injection hok with hr
    subst hr
    rcases auto_core_posthoc_cases o data value_col group_col alpha parametric? hlen
      with h | h
    · exact h
    · exact absurd ⟨h.1, h.2.1⟩ hcond
  · rw [auto_compare_error o data value_col group_col alpha parametric?
      (by omega)] at hok
    cases hok

/-- Witness for C2: Scenario B shape — three groups, parametric branch,
non-significant ANOVA (p = 1); `post_hoc_tests` is `None`. -/
theorem claim_C2_witness :
    (auto_compare trivialOracle dataThree "value" "group" (mkRat 1 20) none).toOption.map
      (fun r => r.post_hoc_tests) = some none := by
  have hok := auto_compare_ok trivialOracle dataThree "value" "group" (mkRat 1 20)
    none (by decide)
  have h := claim_C2_posthoc_none trivialOracle dataThree "value" "group"
    (mkRat 1 20) none
    (auto_core trivialOracle dataThree "value" "group" (mkRat 1 20) none) hok
    (by decide)
  rw [hok]
  show some ((auto_core trivialOracle dataThree "value" "group"
    (mkRat 1 20) none).post_hoc_tests) = some none
  rw [h]

/-- C1 (as amended): on the non-parametric branch `auto_compare` never
runs a post-hoc stage — `post_hoc_tests` stays `None` even when there
are 3 or more groups and the Kruskal-Wallis main test is significant.
(The claimed raw pairwise Mann-Whitney post-hoc does not exist in the
code; only the parametric ANOVA branch triggers a post-hoc, Tukey HSD.) -/
theorem claim_C1_amended (o : SciPyOracle) (data : List (String × Fl))
    (value_col group_col : String) (alpha : ℚ) (parametric? : Option Bool)
    (r : AutoResult)
    (hok : auto_compare o data value_col group_col alpha parametric? = .ok r)
    (hnp : r.parametric = false) :
    r.post_hoc_tests = none := by
  by_cases hlen : 2 ≤ (uniqueLabels (data.map (·.1))).length
  · rw [auto_compare_ok o data value_col group_col alpha parametric? hlen] at hok
    injection hok with hr
    subst hr
    rcases auto_core_posthoc_cases o data value_col group_col alpha parametric? hlen
      with h | h
    · exact h
    · rw [h.2.2] at hnp
      cases hnp
  · rw [auto_compare_error o data value_col group_col alpha parametric?
      (by omega)] at hok
    cases hok

/-- Counterexample to C1 as stated: three groups, non-parametric branch
taken (every Shapiro p ≤ α), Kruskal-Wallis main test significant
(p = 1/1000 < α = 1/20) — yet `post_hoc_tests` is `None`, not a list of
C(3,2) = 3 pairwise Mann-Whitney rows. -/
theorem claim_C1_counterexample :
    (auto_compare oracleKW dataThree "value" "group" (mkRat 1 20) none).toOption.map
      (fun r => (r.num_groups, r.parametric, r.main_test.test_name,
                 r.main_test.significant, r.post_hoc_tests))
      = some (3, false, "Kruskal-Wallis H test", true, none) := by
  rfl

/-- Witness for the amended C1 at the same input. -/
theorem claim_C1_witness :
    (auto_compare oracleKW dataThree "value" "group" (mkRat 1 20) none).toOption.map
      (fun r => r.post_hoc_tests) = some none := by
  have hok := auto_compare_ok oracleKW dataThree "value" "group" (mkRat 1 20) none
    (by decide)
  have h := claim_C1_amended oracleKW dataThree "value" "group" (mkRat 1 20) none
    (auto_core oracleKW dataThree "value" "group" (mkRat 1 20) none) hok (by decide)
  rw [hok]
  show some ((auto_core oracleKW dataThree "value" "group"
    (mkRat 1 20) none).post_hoc_tests) = some none
  rw [h]

/-- C4: with fewer than 3 valid (non-NaN) observations, `test_normality`
returns — without raising, for any oracle and any requested test name —
the sentinel verdict `is_normal = false` with NaN statistic and
p-value. -/
theorem claim_C4_small_sample_sentinel (o : SciPyOracle) (alpha : ℚ)
    (data : List Fl) (test : String) (h : (dropna data).length < 3) :
    test_normality o alpha data test
      = .ok { test_name := test, statistic := none, p_value := none,
              is_normal := false, alpha := alpha } := by
  unfold test_normality
  rw [if_pos h]

/-- Witness for C4: two valid observations and one NaN. -/
theorem claim_C4_witness :
    (dropna [some 1, none, some 2]).length < 3 ∧
    test_normality trivialOracle (mkRat 1 20) [some 1, none, some 2] "shapiro"
      = .ok { test_name := "shapiro", statistic := none, p_value := none,
              is_normal := false, alpha := mkRat 1 20 } :=
  ⟨by decide,
   claim_C4_small_sample_sentinel trivialOracle (mkRat 1 20)
     [some 1, none, some 2] "shapiro" (by decide)⟩

/-- Two distinct labels, group "b" with exactly 1 valid observation. -/
def dataSmallGroup : List (String × Fl) :=
  [("a", some 1), ("a", some 2), ("a", some 3), ("b", some 7)]

/-- Counterexample to C7 as stated: two distinct labels where group "b"
has exactly 1 valid observation (fewer than 2).  `auto_compare` does not
raise any error — there is no insufficient-data check in the code — and
returns a report (here group "b" fails the 3-observation normality
precondition, so the non-parametric Mann-Whitney branch runs). -/
theorem claim_C7_counterexample :
    (auto_compare trivialOracle dataSmallGroup "value" "group" (mkRat 1 20)
        none).toOption.map
      (fun r => (r.num_groups, r.descriptive_stats.map (fun q => (q.1, q.2.n)),
                 r.main_test.test_name))
      = some (2, [("a", 3), ("b", 1)], "Mann-Whitney U test") := by rfl

/-- C7 (as amended): `auto_compare` performs no per-group minimum-size
validation: whenever at least 2 distinct group labels are present it
returns a report — even if some group has fewer than 2 valid
observations — rather than raising an insufficient-data error (which
does not exist in the code). -/
theorem claim_C7_amended (o : SciPyOracle) (data : List (String × Fl))
    (value_col group_col : String) (alpha : ℚ) (parametric? : Option Bool)
    (h : 2 ≤ (uniqueLabels (data.map (·.1))).length) :
    (auto_compare o data value_col group_col alpha parametric?).toOption.isSome
      = true := by
  rw [auto_compare_ok o data value_col group_col alpha parametric? h]
  rfl

/-- Witness for the amended C7 at the small-group input. -/
theorem claim_C7_witness :
    2 ≤ (uniqueLabels (dataSmallGroup.map (·.1))).length ∧
    (auto_compare trivialOracle dataSmallGroup "value" "group" (mkRat 1 20)
        none).toOption.isSome = true :=
  ⟨by decide,
   claim_C7_amended trivialOracle dataSmallGroup "value" "group" (mkRat 1 20)
     none (by decide)⟩

theorem map_fst_pairing {α β : Type} (f : α → β) (l : List α) :
    List.map ((fun x => x.1) ∘ fun g => (g, f g)) l = l := by
  induction l with
  | nil => rfl
  | cons a t ih => simp only [List.map_cons, Function.comp_apply, ih]

/-- C3: with no parametric override, the parametric branch is selected
iff every group's normality verdict `is_normal` is true (the report's
`parametric` flag equals the conjunction over its verdicts, which cover
exactly the groups); and the main test is fixed by group count —
2 groups give the t-test / Mann-Whitney U, 3 or more give one-way ANOVA
/ Kruskal-Wallis, by branch. -/
theorem claim_C3_branch_selection (o : SciPyOracle) (data : List (String × Fl))
    (value_col group_col : String) (alpha : ℚ) (r : AutoResult)
    (hok : auto_compare o data value_col group_col alpha none = .ok r) :
    r.parametric = r.normality_tests.all (fun q => q.2.is_normal) ∧
    r.normality_tests.map (·.1) = r.group_names ∧
    (r.num_groups = 2 →
      r.main_test.test_name
        = if r.parametric then "Independent t-test" else "Mann-Whitney U test") ∧
    (3 ≤ r.num_groups →
      r.main_test.test_name
        = if r.parametric then "One-way ANOVA" else "Kruskal-Wallis H test") := by
  by_cases hlen : 2 ≤ (uniqueLabels (data.map (·.1))).length
  · rw [auto_compare_ok o data value_col group_col alpha none hlen] at hok
    injection hok with hr
    subst hr
    unfold auto_core
    by_cases h2 : (uniqueLabels (data.map (·.1))).length = 2
    · cases hall : ((uniqueLabels (data.map (·.1))).map
          (fun g => (g, shapiroNT o alpha (col data g)))).all
          (fun q => q.2.is_normal) with
      | false =>
          refine ⟨?_, ?_, ?_, ?_⟩ <;>
            simp [h2, hall, independent_t_test, mann_whitney_test,
              List.map_map, Function.comp] <;>
            exact map_fst_pairing _ _
      | true =>
          refine ⟨?_, ?_, ?_, ?_⟩ <;>
            simp [h2, hall, independent_t_test, mann_whitney_test,
              List.map_map, Function.comp] <;>
            exact map_fst_pairing _ _
    · cases hall : ((uniqueLabels (data.map (·.1))).map
          (fun g => (g, shapiroNT o alpha (col data g)))).all
          (fun q => q.2.is_normal) with
      | false =>
          refine ⟨?_, ?_, ?_, ?_⟩ <;>
            simp [if_neg h2, hall, one_way_anova, kruskal_wallis,
              List.map_map, Function.comp] <;>
            first
              | exact map_fst_pairing _ _
              | exact h2
      | true =>
          refine ⟨?_, ?_, ?_, ?_⟩ <;>
            simp [if_neg h2, hall, one_way_anova, kruskal_wallis,
              List.map_map, Function.comp] <;>
            first
              | exact map_fst_pairing _ _
              | exact h2
  · rw [auto_compare_error o data value_col group_col alpha none (by omega)] at hok
    cases hok

/-- Witness for C3: three-group run, all verdicts normal, ANOVA chosen. -/
theorem claim_C3_witness :
    (auto_core trivialOracle dataThree "value" "group" (mkRat 1 20) none).parametric
      = (auto_core trivialOracle dataThree "value" "group" (mkRat 1 20)
          none).normality_tests.all (fun q => q.2.is_normal) ∧
    (auto_core trivialOracle dataThree "value" "group" (mkRat 1 20)
        none).main_test.test_name = "One-way ANOVA" := by
  have hok := auto_compare_ok trivialOracle dataThree "value" "group"
    (mkRat 1 20) none (by decide)
  have h := claim_C3_branch_selection trivialOracle dataThree "value" "group"
    (mkRat 1 20) _ hok
  refine ⟨h.1, ?_⟩
  rw [h.2.2.2 (by decide)]
  rfl

/-- The `additional_info` payload of a t-test result, when it is one. -/
def TestInfo.ttestPayload : TestInfo → Option TTestInfo
  | .ttest i => some i
  | _ => none

theorem sum_sq_nonneg (xs : List ℚ) (c : ℚ) :
    0 ≤ (xs.map (fun x => (x - c) ^ 2)).sum := by
  induction xs with
  | nil => simp
  | cons a t ih =>
      simp only [List.map_cons, List.sum_cons]
      have := sq_nonneg (a - c)
      linarith

theorem sampleVar_nonneg (xs : List ℚ) : 0 ≤ sampleVar xs := by
  cases xs with
  | nil => simp [sampleVar, qmean]
  | cons a t =>
      unfold sampleVar
      apply div_nonneg (sum_sq_nonneg _ _)
      simp only [List.length_cons]
      push_cast
      linarith [Nat.cast_nonneg (α := ℚ) t.length]

/-- C5: for groups with at least 2 valid observations each and nonzero
pooled variance, the t-test reports Cohen's d equal to
`(mean1 − mean2) / sqrt((std1² + std2²)/2)` — means and standard
deviations taken over each group's valid observations — together with
each group's mean, std and n. -/
theorem claim_C5_cohens_d (o : SciPyOracle) (alpha : ℚ)
    (group1 group2 : List Fl) (equal_var : Bool)
    (h1 : 2 ≤ (dropna group1).length) (h2 : 2 ≤ (dropna group2).length)
    (hv : 0 < sampleVar (dropna group1) + sampleVar (dropna group2)) :
    (independent_t_test o alpha group1 group2 equal_var).additional_info
      = .ttest
          { mean_diff := some (qmean (dropna group1) - qmean (dropna group2)),
            cohens_d := some
              (((qmean (dropna group1) : ℝ) - (qmean (dropna group2) : ℝ)) /
                Real.sqrt ((Real.sqrt (sampleVar (dropna group1)) ^ 2
                  + Real.sqrt (sampleVar (dropna group2)) ^ 2) / 2)),
            group1_mean := some (qmean (dropna group1)),
            group2_mean := some (qmean (dropna group2)),
            group1_std := some (Real.sqrt (sampleVar (dropna group1))),
            group2_std := some (Real.sqrt (sampleVar (dropna group2))),
            group1_n := (dropna group1).length,
            group2_n := (dropna group2).length } := by
  have he1 : (dropna group1).isEmpty = false := by
    cases hc : dropna group1 with
    | nil => rw [hc] at h1; simp at h1
    | cons a t => rfl
  have he2 : (dropna group2).isEmpty = false := by
    cases hc : dropna group2 with
    | nil => rw [hc] at h2; simp at h2
    | cons a t => rfl
  have hps : 0 < Real.sqrt ((Real.sqrt (sampleVar (dropna group1)) ^ 2
      + Real.sqrt (sampleVar (dropna group2)) ^ 2) / 2) := by
    apply Real.sqrt_pos.mpr
    rw [Real.sq_sqrt (by exact_mod_cast sampleVar_nonneg (dropna group1)),
        Real.sq_sqrt (by exact_mod_cast sampleVar_nonneg (dropna group2))]
    have hcast : (0 : ℝ) < ((sampleVar (dropna group1)
        + sampleVar (dropna group2) : ℚ) : ℝ) := by exact_mod_cast hv
    push_cast at hcast
    linarith
  unfold independent_t_test
  simp only [stdFl, if_pos h1, if_pos h2, meanFl, he1, flSub,
    Bool.false_eq_true, if_false, if_pos hps]
  simp [Rat.cast_sub, he2]

/-- Concrete t-test inputs for the C5 witness. -/
def g1W : List Fl := [some 1, some 2, some 3]

/-- Second concrete t-test input for the C5 witness. -/
def g2W : List Fl := [some 2, some 4, some 6]

/-- Witness for C5 at two 3-element groups with nonzero variances. -/
theorem claim_C5_witness :
    (2 ≤ (dropna g1W).length ∧ 2 ≤ (dropna g2W).length ∧
      0 < sampleVar (dropna g1W) + sampleVar (dropna g2W)) ∧
    (independent_t_test trivialOracle (mkRat 1 20) g1W g2W true).additional_info
      = .ttest
          { mean_diff := some (qmean (dropna g1W) - qmean (dropna g2W)),
            cohens_d := some
              (((qmean (dropna g1W) : ℝ) - (qmean (dropna g2W) : ℝ)) /
                Real.sqrt ((Real.sqrt (sampleVar (dropna g1W)) ^ 2
                  + Real.sqrt (sampleVar (dropna g2W)) ^ 2) / 2)),
            group1_mean := some (qmean (dropna g1W)),
            group2_mean := some (qmean (dropna g2W)),
            group1_std := some (Real.sqrt (sampleVar (dropna g1W))),
            group2_std := some (Real.sqrt (sampleVar (dropna g2W))),
            group1_n := (dropna g1W).length,
            group2_n := (dropna g2W).length } := by
  have hd1 : dropna g1W = [1, 2, 3] := rfl
  have hd2 : dropna g2W = [2, 4, 6] := rfl
  have hv : 0 < sampleVar (dropna g1W) + sampleVar (dropna g2W) := by
    rw [hd1, hd2]
    norm_num [sampleVar, qmean]
  exact ⟨⟨by decide, by decide, hv⟩,
    claim_C5_cohens_d trivialOracle (mkRat 1 20) g1W g2W true
      (by decide) (by decide) hv⟩

/-- C10: when both groups (each with at least 2 valid observations) have
zero sample variance, the pooled standard deviation is 0, the
`pooled_std > 0` guard fails, and the reported Cohen's d is NaN — not an
error or an infinity. -/
theorem claim_C10_zero_pooled_std_nan (o : SciPyOracle) (alpha : ℚ)
    (group1 group2 : List Fl) (equal_var : Bool)
    (h1 : 2 ≤ (dropna group1).length) (h2 : 2 ≤ (dropna group2).length)
    (hv1 : sampleVar (dropna group1) = 0) (hv2 : sampleVar (dropna group2) = 0) :
    ((independent_t_test o alpha group1 group2 equal_var).additional_info).ttestPayload.map
      (fun i => i.cohens_d) = some none := by
  unfold independent_t_test
  simp only [stdFl, if_pos h1, if_pos h2, hv1, hv2]
  simp [TestInfo.ttestPayload, Real.sqrt_zero]

/-- First constant group for the C10 witness. -/
def g1Z : List Fl := [some 5, some 5]

/-- Second constant group for the C10 witness. -/
def g2Z : List Fl := [some 3, some 3, some 3]

/-- Witness for C10 at two constant groups. -/
theorem claim_C10_witness :
    (2 ≤ (dropna g1Z).length ∧ 2 ≤ (dropna g2Z).length ∧
      sampleVar (dropna g1Z) = 0 ∧ sampleVar (dropna g2Z) = 0) ∧
    ((independent_t_test trivialOracle (mkRat 1 20) g1Z g2Z true).additional_info).ttestPayload.map
      (fun i => i.cohens_d) = some none := by
  have hz1 : sampleVar (dropna g1Z) = 0 := by
    norm_num [sampleVar, qmean, dropna, g1Z, List.filterMap]
  have hz2 : sampleVar (dropna g2Z) = 0 := by
    norm_num [sampleVar, qmean, dropna, g2Z, List.filterMap]
  exact ⟨⟨by decide, by decide, hz1, hz2⟩,
    claim_C10_zero_pooled_std_nan trivialOracle (mkRat 1 20) g1Z g2Z true
      (by decide) (by decide) hz1 hz2⟩

theorem sum_sub_sq (xs : List ℚ) (c : ℚ) :
    (xs.map (fun x => (x - c) ^ 2)).sum
      = (xs.map (fun x => x ^ 2)).sum - 2 * c * xs.sum + xs.length * c ^ 2 := by
  induction xs with
  | nil => simp
  | cons a t ih =>
      simp only [List.map_cons, List.sum_cons, List.length_cons, ih]
      push_cast
      ring

theorem group_term_le (xs : List ℚ) (c : ℚ) :
    (xs.length : ℚ) * (qmean xs - c) ^ 2 ≤ (xs.map (fun x => (x - c) ^ 2)).sum := by
  cases xs with
  | nil => simp
  | cons a t =>
      have hn : (0 : ℚ) < ((a :: t).length : ℚ) := by
        simp only [List.length_cons]
        push_cast
        linarith [Nat.cast_nonneg (α := ℚ) t.length]
      have e1 := sum_sub_sq (a :: t) c
      have e2 := sum_sub_sq (a :: t) (qmean (a :: t))
      have h0 : 0 ≤ ((a :: t).map (fun x => (x - qmean (a :: t)) ^ 2)).sum :=
        sum_sq_nonneg _ _
      rw [e2] at h0
      rw [e1]
      have hm : qmean (a :: t) = (a :: t).sum / ((a :: t).length : ℚ) := rfl
      rw [hm] at h0 ⊢
      have hfrac : ((a :: t).length : ℚ) * ((a :: t).sum / ((a :: t).length : ℚ) - c) ^ 2
          = (a :: t).sum ^ 2 / ((a :: t).length : ℚ) - 2 * (a :: t).sum * c
            + ((a :: t).length : ℚ) * c ^ 2 := by
        field_simp
        ring
      have hfrac2 : ((a :: t).map (fun x => x ^ 2)).sum
            - 2 * ((a :: t).sum / ((a :: t).length : ℚ)) * (a :: t).sum
            + ((a :: t).length : ℚ) * ((a :: t).sum / ((a :: t).length : ℚ)) ^ 2
          = ((a :: t).map (fun x => x ^ 2)).sum
            - (a :: t).sum ^ 2 / ((a :: t).length : ℚ) := by
        field_simp
        ring
      rw [hfrac2] at h0
      rw [hfrac]
      linarith

theorem ssTotal_nonneg (gc : List (List ℚ)) (c : ℚ) : 0 ≤ ssTotal gc c := by
  unfold ssTotal
  apply List.sum_nonneg
  intro x hx
  simp only [List.mem_map] at hx
  obtain ⟨g, _, rfl⟩ := hx
  exact sum_sq_nonneg g c

theorem ssBetween_nonneg (gc : List (List ℚ)) (c : ℚ) : 0 ≤ ssBetween gc c := by
  unfold ssBetween
  apply List.sum_nonneg
  intro x hx
  simp only [List.mem_map] at hx
  obtain ⟨g, _, rfl⟩ := hx
  positivity

theorem ssBetween_le_ssTotal (gc : List (List ℚ)) (c : ℚ) :
    ssBetween gc c ≤ ssTotal gc c := by
  unfold ssBetween ssTotal
  apply List.sum_le_sum
  intro g _
  exact group_term_le g c

theorem list_sum_const (xs : List ℚ) (c : ℚ) (h : ∀ x ∈ xs, x = c) :
    xs.sum = xs.length * c := by
  induction xs with
  | nil => simp
  | cons a t ih =>
      have ha : a = c := h a (by simp)
      have ht : t.sum = t.length * c := ih (fun x hx => h x (by simp [hx]))
      simp only [List.sum_cons, List.length_cons, ha, ht]
      push_cast
      ring

theorem qmean_const (xs : List ℚ) (c : ℚ) (hne : xs ≠ [])
    (h : ∀ x ∈ xs, x = c) : qmean xs = c := by
  have hn : ((xs.length : ℚ)) ≠ 0 := by
    cases xs with
    | nil => exact absurd rfl hne
    | cons a t =>
        simp only [List.length_cons]
        push_cast
        have := Nat.cast_nonneg (α := ℚ) t.length
        intro hc
        linarith
  unfold qmean
  rw [list_sum_const xs c h]
  field_simp

theorem ssTotal_const_zero (gc : List (List ℚ)) (c : ℚ)
    (h : ∀ g ∈ gc, ∀ x ∈ g, x = c) : ssTotal gc c = 0 := by
  unfold ssTotal
  apply List.sum_eq_zero
  intro y hy
  simp only [List.mem_map] at hy
  obtain ⟨g, hg, rfl⟩ := hy
  apply List.sum_eq_zero
  intro z hz
  simp only [List.mem_map] at hz
  obtain ⟨x, hx, rfl⟩ := hz
  rw [h g hg x hx]
  ring

/-- The `additional_info` payload of an ANOVA result, when it is one. -/
def TestInfo.anovaPayload : TestInfo → Option AnovaInfo
  | .anova i => some i
  | _ => none

theorem one_way_anova_eta (o : SciPyOracle) (alpha : ℚ) (groups : List (List Fl))
    (hne : groups ≠ []) (hgne : ∀ g ∈ groups, dropna g ≠ []) :
    (one_way_anova o alpha groups).additional_info.anovaPayload.map
        (fun i => i.eta_squared)
      = some (if 0 < ssTotal (groups.map dropna)
                    (qmean ((groups.map dropna).map qmean))
              then some (ssBetween (groups.map dropna)
                          (qmean ((groups.map dropna).map qmean))
                        / ssTotal (groups.map dropna)
                            (qmean ((groups.map dropna).map qmean)))
              else none) := by
  have hie : (groups.map dropna).isEmpty = false := by
    cases groups with
    | nil => exact absurd rfl hne
    | cons a t => rfl
  have hany : (groups.map dropna).any (fun g => g.isEmpty) = false := by
    rw [List.any_eq_false]
    intro g hg
    simp only [List.mem_map] at hg
    obtain ⟨g0, hg0, rfl⟩ := hg
    simpa using hgne g0 hg0
  unfold one_way_anova grandMean
  simp [hie, hany, TestInfo.anovaPayload]

/-- C6: for nonempty groups (each with at least one valid observation),
the ANOVA effect size η² equals SS_between/SS_total; when SS_total is
nonzero it lies in [0,1], and when all observations across all groups
are identical (SS_total = 0) it is NaN. -/
theorem claim_C6_eta_squared (o : SciPyOracle) (alpha : ℚ)
    (groups : List (List Fl)) (hne : groups ≠ [])
    (hgne : ∀ g ∈ groups, dropna g ≠ []) :
    (ssTotal (groups.map dropna) (qmean ((groups.map dropna).map qmean)) ≠ 0 →
      (one_way_anova o alpha groups).additional_info.anovaPayload.map
          (fun i => i.eta_squared)
        = some (some (ssBetween (groups.map dropna)
                        (qmean ((groups.map dropna).map qmean))
                      / ssTotal (groups.map dropna)
                          (qmean ((groups.map dropna).map qmean)))) ∧
      0 ≤ ssBetween (groups.map dropna) (qmean ((groups.map dropna).map qmean))
            / ssTotal (groups.map dropna) (qmean ((groups.map dropna).map qmean)) ∧
      ssBetween (groups.map dropna) (qmean ((groups.map dropna).map qmean))
            / ssTotal (groups.map dropna) (qmean ((groups.map dropna).map qmean))
        ≤ 1) ∧
    ((∃ c, ∀ g ∈ groups, ∀ x ∈ dropna g, x = c) →
      (one_way_anova o alpha groups).additional_info.anovaPayload.map
          (fun i => i.eta_squared)
        = some none) := by
  constructor
  · intro hst
    have hpos : 0 < ssTotal (groups.map dropna)
        (qmean ((groups.map dropna).map qmean)) :=
      lt_of_le_of_ne (ssTotal_nonneg _ _) (Ne.symm hst)
    refine ⟨?_, div_nonneg (ssBetween_nonneg _ _) (le_of_lt hpos),
      (div_le_one hpos).mpr (ssBetween_le_ssTotal _ _)⟩
    rw [one_way_anova_eta o alpha groups hne hgne, if_pos hpos]
  · rintro ⟨c, hc⟩
    have hgc : ∀ g ∈ groups.map dropna, ∀ x ∈ g, x = c := by
      intro g hg x hx
      obtain ⟨g0, hg0, rfl⟩ := List.mem_map.mp hg
      exact hc g0 hg0 x hx
    have hmeans : ∀ m ∈ (groups.map dropna).map qmean, m = c := by
      intro m hm
      simp only [List.mem_map] at hm
      obtain ⟨g, ⟨g0, hg0, rfl⟩, rfl⟩ := hm
      exact qmean_const (dropna g0) c (hgne g0 hg0) (hc g0 hg0)
    have hmne : (groups.map dropna).map qmean ≠ [] := by
      cases groups with
      | nil => exact absurd rfl hne
      | cons a t => simp
    have hgm : qmean ((groups.map dropna).map qmean) = c :=
      qmean_const _ c hmne hmeans
    have hzero : ssTotal (groups.map dropna)
        (qmean ((groups.map dropna).map qmean)) = 0 := by
      rw [hgm]
      exact ssTotal_const_zero _ c hgc
    rw [one_way_anova_eta o alpha groups hne hgne, hzero]
    simp

/-- Concrete groups for the C6 witness. -/
def groupsW : List (List Fl) := [[some 1, some 3], [some 5, some 7]]

/-- Witness for C6 at two 2-element groups with nonzero total variance. -/
theorem claim_C6_witness :
    (groupsW ≠ [] ∧ (∀ g ∈ groupsW, dropna g ≠ []) ∧
      ssTotal (groupsW.map dropna) (qmean ((groupsW.map dropna).map qmean)) ≠ 0) ∧
    ((one_way_anova trivialOracle (mkRat 1 20) groupsW).additional_info.anovaPayload.map
        (fun i => i.eta_squared)
      = some (some (ssBetween (groupsW.map dropna)
                      (qmean ((groupsW.map dropna).map qmean))
                    / ssTotal (groupsW.map dropna)
                        (qmean ((groupsW.map dropna).map qmean)))) ∧
      0 ≤ ssBetween (groupsW.map dropna) (qmean ((groupsW.map dropna).map qmean))
            / ssTotal (groupsW.map dropna) (qmean ((groupsW.map dropna).map qmean)) ∧
      ssBetween (groupsW.map dropna) (qmean ((groupsW.map dropna).map qmean))
            / ssTotal (groupsW.map dropna) (qmean ((groupsW.map dropna).map qmean))
        ≤ 1) := by
  have hne : groupsW ≠ [] := by decide
  have hgne : ∀ g ∈ groupsW, dropna g ≠ [] := by decide
  have hmap : groupsW.map dropna = [[1, 3], [5, 7]] := rfl
  have hst : ssTotal (groupsW.map dropna)
      (qmean ((groupsW.map dropna).map qmean)) ≠ 0 := by
    rw [hmap]
    norm_num [ssTotal, qmean]
  exact ⟨⟨hne, hgne, hst⟩,
    (claim_C6_eta_squared trivialOracle (mkRat 1 20) groupsW hne hgne).1 hst⟩
